import Mathlib

/-!
Verification of the resilient multi-engine OCR invocation layer.

Shallow embedding of the core of the repository:
* `app/qwen_ocr_robust.py` — `RobustQwenOCR` (primary adapter, deadline-bounded
  generation via `_generate_with_timeout`),
* `app/paddle_ocr.py` — `PaddleOCREngine` (secondary adapter with demo fallback),
* `app/main.py` — the `/ocr` handler (mode dispatch, automatic fallback cascade,
  `OCRResponse` construction) and `ConnectionManager.send_progress`.

Opaque external effects (model construction via `from_pretrained`, image decoding,
the generation work, the PaddleOCR library call) are parameters of explicit
environment records; each Python result dict is a `PyResult` whose optional
fields model dict keys that may be absent (`dict.get` semantics).  Wall-clock
fields (`processing_time`, `timeout_used`) are omitted: no examined property
depends on them.
-/

/-- Python `str.split()` (no separator): maximal runs of non-whitespace
characters, so no empty tokens are produced. -/
def pyWordsAux : List Char → List Char → List String
  | [], acc => if acc.isEmpty then [] else [String.mk acc.reverse]
  | c :: rest, acc =>
    if c.isWhitespace then
      if acc.isEmpty then pyWordsAux rest []
      else String.mk acc.reverse :: pyWordsAux rest []
    else pyWordsAux rest (c :: acc)

/-- Python `str.split()` on a `String`. -/
def pySplit (s : String) : List String := pyWordsAux s.toList []

/-- Python `str.strip()`: drop leading and trailing whitespace. -/
def pyStrip (s : String) : String :=
  String.mk (((s.toList.dropWhile Char.isWhitespace).reverse.dropWhile Char.isWhitespace).reverse)

/-- Python `sep.join(items)`. -/
def pyJoin (sep : String) : List String → String
  | [] => ""
  | [x] => x
  | x :: y :: rest => x ++ sep ++ pyJoin sep (y :: rest)

/-- A Python OCR result dict.  `text` and `confidence` are present in every
result dict the source constructs; the remaining keys may be absent
(`none`), matching `dict.get` lookups in `main.py`.  Confidence is modelled
as a rational number. -/
structure PyResult where
  text : String
  confidence : Rat
  success : Option Bool := none
  error : Option String := none
  language : Option String := none
  engine : Option String := none
  word_count : Option Nat := none
  model_name : Option String := none
  device : Option String := none
  timeout_occurred : Option Bool := none
  fallback_recommended : Option Bool := none
  demo_mode : Option Bool := none
  deriving Repr, DecidableEq

/-- Python truthiness of `d.get(key)` for an optional boolean key. -/
def optTruthy (o : Option Bool) : Bool := o.getD false

/-- Python truthiness of `d.get("error")`: absent (`None`) and the empty
string are both falsy. -/
def errTruthy : Option String → Bool
  | none => false
  | some s => !(s == "")

/-- A progress milestone `(message, percent)` as passed to the progress
callback. -/
abbrev ProgressEvent := String × Nat

/-- The percent components of a trace of progress events. -/
def percents (evs : List ProgressEvent) : List Nat := evs.map (fun e => e.2)

/-- Boolean check that a list of percentages is non-decreasing. -/
def nonDecreasingB : List Nat → Bool
  | [] => true
  | [_] => true
  | a :: b :: rest => decide (a ≤ b) && nonDecreasingB (b :: rest)

/-! ## RobustQwenOCR (`app/qwen_ocr_robust.py`) -/

/-- Mutable state of a `RobustQwenOCR` instance relevant to the claims:
`self.model_name` (rewritten by the candidate loop), `self.model_loaded`,
and the configured `self.timeout` (seconds). -/
structure QwenState where
  model_name : String
  model_loaded : Bool
  timeout : Nat
  deriving Repr, DecidableEq

/-- `self.model_candidates` in `RobustQwenOCR.__init__`. -/
def qwenModelCandidates : List String :=
  ["Qwen/Qwen2.5-VL-3B-Instruct", "Qwen/Qwen-VL-Chat"]

/-- The names of the three loading approaches tried in `load_model`. -/
def qwenLoadingApproaches : List String :=
  ["AutoModelForVision2Seq with float32",
   "AutoModelForVision2Seq with float16",
   "AutoModelForVision2Seq basic"]

/-- Outcome of the opaque generation work wrapped by
`_generate_with_timeout`: it completes with decoded output before the
deadline, raises before the deadline, or has not completed when the
deadline elapses. -/
inductive GenOutcome where
  | completes (out : String)
  | raises (msg : String)
  | hangs
  deriving Repr, DecidableEq

/-- Environment of one `extract_text` invocation: outcomes of the opaque
external calls. `procLoads c` tells whether `AutoProcessor.from_pretrained c`
succeeds; `modelLoads a` whether the loading approach named `a` succeeds;
`imageLoad` whether `Image.open` succeeds (or the raised message); `gen`
the behaviour of `self.model.generate`. -/
structure QwenEnv where
  procLoads : String → Bool
  modelLoads : String → Bool
  imageLoad : Except String Unit
  gen : GenOutcome

/-- Result of `load_model`: returned `True`, returned `False`, or raised. -/
inductive LoadOutcome where
  | retTrue
  | retFalse
  | raised (msg : String)
  deriving Repr, DecidableEq

/-- What one `load_model` call produced: emitted progress events, the state
after the call, its outcome, and how many handle-construction attempts
(`from_pretrained` calls) it made. -/
structure LoadRet where
  events : List ProgressEvent
  st : QwenState
  outcome : LoadOutcome
  constructions : Nat
  deriving Repr

/-- The candidate loop of `load_model` (lines 103–131): per candidate it
emits the 10% and 20% milestones, attempts the processor load, and stops at
the first candidate whose processor loads.  Returns the events, the number
of attempts, and the successful candidate if any. -/
def tryProcessorLoads (p : String → Bool) :
    List String → List ProgressEvent × Nat × Option String
  | [] => ([], 0, none)
  | c :: rest =>
    let evs : List ProgressEvent :=
      [("Trying model: " ++ c ++ "...", 10), ("Loading processor...", 20)]
    if p c then (evs, 1, some c)
    else
      let t := tryProcessorLoads p rest
      (evs ++ t.1, t.2.1 + 1, t.2.2)

/-- The loading-approach loop of `load_model` (lines 171–184): attempts the
approaches in order against `modelLoads`, stopping at the first success.
Returns the number of attempts and whether any succeeded. -/
def tryApproaches (p : String → Bool) : List String → Nat × Bool
  | [] => (0, false)
  | a :: rest =>
    if p a then (1, true)
    else
      let t := tryApproaches p rest
      (t.1 + 1, t.2)

/-- Message of the exception raised at line 134 of `load_model` when no
candidate's processor loads. -/
def qwenNoCandidateMsg : String :=
  "Failed to load any compatible model from: " ++ toString qwenModelCandidates

/-- `RobustQwenOCR.load_model`.  Returns immediately when the model is
already loaded; otherwise runs the candidate loop (raising when no
candidate works), then the approach loop (returning `False` when every
approach fails), setting `model_loaded` only on full success. -/
def qwenLoadModel (st : QwenState) (env : QwenEnv) : LoadRet :=
  if st.model_loaded then ⟨[], st, .retTrue, 0⟩
  else
    let t := tryProcessorLoads env.procLoads qwenModelCandidates
    match t.2.2 with
    | none => ⟨t.1, st, .raised qwenNoCandidateMsg, t.2.1⟩
    | some c =>
      let st1 : QwenState := { st with model_name := c }
      let evs2 := t.1 ++ [("Loading vision-language model...", 40)]
      let a := tryApproaches env.modelLoads qwenLoadingApproaches
      if a.2 then
        ⟨evs2 ++ [("Model ready for inference", 60)],
         { st1 with model_loaded := true }, .retTrue, t.2.1 + a.1⟩
      else
        ⟨evs2, st1, .retFalse, t.2.1 + a.1⟩

/-- The shared result dict of `_generate_with_timeout`. -/
structure GenResult where
  success : Bool
  output : Option String
  error : Option String
  deriving Repr, DecidableEq

/-- `RobustQwenOCR._generate_with_timeout`: if the work completes before the
deadline its output is returned; if it raises, its own error message is
returned; if it has not completed when `thread.join(timeout)` elapses, a
timeout message naming the configured deadline is returned.  No separate
timeout marker exists at this level. -/
def generateWithTimeout (timeout : Nat) : GenOutcome → GenResult
  | .completes out => ⟨true, some out, none⟩
  | .raises msg => ⟨false, none, some msg⟩
  | .hangs => ⟨false, none,
      some ("Text generation timed out after " ++ toString timeout ++ "s")⟩

/-- `RobustQwenOCR._create_error_response`. -/
def qwenErrorResponse (msg : String) (st : QwenState) : PyResult :=
  { text := "", confidence := 0, language := some ("unknown"),
    engine := some ("Qwen2.5-VL-3B-Instruct (Robust)"), word_count := some 0,
    model_name := some st.model_name, device := some ("cpu"),
    success := some false, error := some msg }

/-- `RobustQwenOCR._create_timeout_response`. -/
def qwenTimeoutResponse (msg : String) (st : QwenState) : PyResult :=
  { text := "", confidence := 0, language := some ("unknown"),
    engine := some ("Qwen2.5-VL-3B-Instruct (Timeout)"), word_count := some 0,
    model_name := some st.model_name, device := some ("cpu"),
    success := some false, error := some msg,
    timeout_occurred := some true, fallback_recommended := some true }

/-- The success dict built at lines 375–386 of `extract_text`:
`extracted_text = output.strip()`, confidence fixed at 90.0, word count
`len(extracted_text.split()) if extracted_text else 0`. -/
def qwenSuccessResponse (rawOut lang : String) (st : QwenState) : PyResult :=
  { text := pyStrip rawOut, confidence := 90, language := some lang,
    engine := some ("Qwen2.5-VL-3B-Instruct (Robust)"),
    word_count := some (if pyStrip rawOut == "" then 0 else (pySplit (pyStrip rawOut)).length),
    model_name := some st.model_name, device := some ("cpu"),
    success := some true }

/-- What one `extract_text` invocation produced: the progress trace, the
returned dict, the state after the call, and the number of
handle-construction attempts performed. -/
structure ExtractRet where
  events : List ProgressEvent
  result : PyResult
  st : QwenState
  constructions : Nat
  deriving Repr

/-- The part of `RobustQwenOCR.extract_text` after the model is available
(lines 246–390): image load, the 70/80 milestones, generation through
`_generate_with_timeout` — every unsuccessful generation is routed to
`_create_timeout_response` (line 344) — and the success dict with the
100% milestone. -/
def qwenExtractLoaded (st : QwenState) (lang : String) (env : QwenEnv)
    (evs0 : List ProgressEvent) (cons : Nat) : ExtractRet :=
  let evs1 := evs0 ++ [("Processing image...", 70)]
  match env.imageLoad with
  | .error msg =>
    ⟨evs1, qwenErrorResponse ("Failed to load image: " ++ msg) st, st, cons⟩
  | .ok _ =>
    let evs2 := evs1 ++ [("Generating text (with timeout protection)...", 80)]
    let g := generateWithTimeout st.timeout env.gen
    if g.success then
      ⟨evs2 ++ [("OCR completed!", 100)],
       qwenSuccessResponse (g.output.getD "") lang st, st, cons⟩
    else
      ⟨evs2, qwenTimeoutResponse (g.error.getD ("Generation failed")) st, st, cons⟩

/-- `RobustQwenOCR.extract_text`.  When the model is not yet loaded it emits
the 0% milestone and calls `load_model`; a `False` return becomes the
"Failed to load model" error response, a raise is caught by the
surrounding `except` and becomes an error response with the exception's
message (`_create_error_response(str(e))`). -/
def qwenExtract (st : QwenState) (lang : String) (env : QwenEnv) : ExtractRet :=
  if st.model_loaded then
    qwenExtractLoaded st lang env [] 0
  else
    let pre : List ProgressEvent := [("Initializing Qwen2.5-VL...", 0)]
    let lr := qwenLoadModel st env
    match lr.outcome with
    | .raised msg => ⟨pre ++ lr.events, qwenErrorResponse msg lr.st, lr.st, lr.constructions⟩
    | .retFalse =>
      ⟨pre ++ lr.events, qwenErrorResponse ("Failed to load model") lr.st, lr.st, lr.constructions⟩
    | .retTrue => qwenExtractLoaded lr.st lang env (pre ++ lr.events) lr.constructions

/-! ## PaddleOCREngine (`app/paddle_ocr.py`) -/

/-- Mutable state of a `PaddleOCREngine` instance: `self.model_loaded`. -/
structure PaddleState where
  model_loaded : Bool
  deriving Repr, DecidableEq

/-- Behaviour of the opaque part of one PaddleOCR `extract_text` call:
`Image.open` raises, `self.ocr.ocr` raises, or the library returns its raw
per-image result list.  A raw line is modelled by its `(text, confidence)`
pair (`line[1]` in the source; the bounding box is never read). -/
inductive PaddleRun where
  | imageRaises (msg : String)
  | ocrRaises (msg : String)
  | returns (res : List (List (String × Rat)))
  deriving Repr, DecidableEq

/-- Environment of one PaddleOCR call: whether the `paddleocr` import
succeeded (`PADDLEOCR_AVAILABLE`), whether constructing `PaddleOCR(...)`
succeeds, and the run behaviour. -/
structure PaddleEnv where
  available : Bool
  loadOk : Bool
  run : PaddleRun
  deriving Repr, DecidableEq

/-- `PaddleOCREngine.load_model`: returns `True` immediately when already
loaded; returns `False` when the library is unavailable; otherwise attempts
one `PaddleOCR(...)` construction, setting `model_loaded` only on success.
Result: (returned boolean, state after, construction attempts). -/
def paddleLoadModel (st : PaddleState) (env : PaddleEnv) : Bool × PaddleState × Nat :=
  if st.model_loaded then (true, st, 0)
  else if !env.available then (false, st, 0)
  else if env.loadOk then (true, ⟨true⟩, 1)
  else (false, st, 1)

/-- `PaddleOCREngine._process_paddle_results`: empty or falsy results give
`""`; otherwise the texts of `results[0]` joined with newlines. -/
def processPaddleResults : List (List (String × Rat)) → String
  | [] => ""
  | first :: _ =>
    if first.isEmpty then ""
    else pyJoin "\n" (first.map (fun l => l.1))

/-- `PaddleOCREngine._calculate_confidence`: average of the per-line
confidences of `results[0]`, scaled to a percentage and clamped to
`[0, 100]`; `0.0` when there are no lines. -/
def calcPaddleConfidence : List (List (String × Rat)) → Rat
  | [] => 0
  | first :: _ =>
    if first.isEmpty then 0
    else
      let confs := first.map (fun l => l.2)
      let avg := confs.sum / (confs.length : Rat)
      min 100 (max 0 (avg * 100))

/-- `PaddleOCREngine._create_demo_response`: the canned dict returned when
PaddleOCR is unavailable, fails to load, or raises — note `success = True`
together with a populated `error` key. -/
def paddleDemoResponse (lang : String) : PyResult :=
  { text := "PaddleOCR demo mode - model not loaded", confidence := 85,
    language := some lang, engine := some ("PaddleOCR-demo"),
    word_count := some 6, model_name := some ("PaddleOCR-demo"),
    device := some ("cpu"), success := some true, demo_mode := some true,
    error := some ("PaddleOCR not available - running in demo mode") }

/-- The success dict of `PaddleOCREngine.extract_text` (lines 127–138). -/
def paddleSuccessResponse (res : List (List (String × Rat))) (lang : String) : PyResult :=
  let extracted := processPaddleResults res
  { text := extracted, confidence := calcPaddleConfidence res,
    language := some lang, engine := some ("PaddleOCR"),
    word_count := some (if extracted == "" then 0 else (pySplit extracted).length),
    model_name := some ("PaddleOCR-en"), device := some ("cpu"),
    success := some true, demo_mode := some false }

/-- What one PaddleOCR `extract_text` call produced. -/
structure PaddleRet where
  events : List ProgressEvent
  result : PyResult
  st : PaddleState
  constructions : Nat
  deriving Repr

/-- `PaddleOCREngine.extract_text`: emits the 0% milestone, falls back to
the demo response when the library is unavailable or `load_model` returns
`False`, then runs the image load and OCR call inside a `try` whose
`except` also returns the demo response; on success emits the
20/50/70/90/100 milestones and returns the success dict. -/
def paddleExtract (st : PaddleState) (lang : String) (env : PaddleEnv) : PaddleRet :=
  let evs0 : List ProgressEvent := [("Initializing PaddleOCR...", 0)]
  if !env.available then ⟨evs0, paddleDemoResponse lang, st, 0⟩
  else
    let evs1 := evs0 ++ [("Loading PaddleOCR model...", 20)]
    let pl := paddleLoadModel st env
    if !pl.1 then ⟨evs1, paddleDemoResponse lang, pl.2.1, pl.2.2⟩
    else
      let evs2 := evs1 ++ [("Processing image with PaddleOCR...", 50)]
      match env.run with
      | .imageRaises _ => ⟨evs2, paddleDemoResponse lang, pl.2.1, pl.2.2⟩
      | .ocrRaises _ =>
        ⟨evs2 ++ [("Running OCR analysis...", 70)], paddleDemoResponse lang, pl.2.1, pl.2.2⟩
      | .returns res =>
        ⟨evs2 ++ [("Running OCR analysis...", 70), ("Processing OCR results...", 90),
                  ("PaddleOCR completed!", 100)],
         paddleSuccessResponse res lang, pl.2.1, pl.2.2⟩

/-! ## The `/ocr` handler (`app/main.py`) -/

/-- Python truthiness of `result.get("success", True)`. -/
def getSuccess (r : PyResult) : Bool := r.success.getD true

/-- The fallback condition of the automatic branch (lines 764–765):
`result.get("timeout_occurred") or result.get("error") or not
result.get("success", True)`. -/
def fallbackCond (r : PyResult) : Bool :=
  optTruthy r.timeout_occurred || errTruthy r.error || !(getSuccess r)

/-- The synthesized dict of lines 788–798, built when the primary raised and
the PaddleOCR fallback also raised.  It carries no `success` key, text
`"OCR processing failed"`, confidence `0`, and an error naming both
engines with their error texts. -/
def combinedFailure (lang qwenErr paddleErr : String) : PyResult :=
  { text := "OCR processing failed", confidence := 0,
    language := some lang, engine := some ("error"), word_count := some 0,
    model_name := some ("none"), device := some ("none"),
    error := some ("Both engines failed: Qwen: " ++ qwenErr ++ ", PaddleOCR: " ++ paddleErr) }

/-- An engine attempt as the handler observes it: the call either returned a
result dict or raised with a message. -/
abbrev Attempt := Except String PyResult

/-- The automatic branch of the `/ocr` handler (lines 752–798).
`qa = none` models `robust_qwen_ocr is None` (PaddleOCR invoked directly,
unguarded); otherwise the primary attempt is `qa` and the secondary attempt
`pa` is invoked exactly where the source invokes PaddleOCR.  Returns the
branch's result (or the exception it propagates) and whether the secondary
engine was invoked. -/
def autoBranch (lang : String) (qa : Option Attempt) (pa : Attempt) : Attempt × Bool :=
  match qa with
  | none => (pa, true)
  | some (.error e) =>
    match pa with
    | .ok p => (.ok p, true)
    | .error pe => (.ok (combinedFailure lang e pe), true)
  | some (.ok r) =>
    if fallbackCond r then
      match pa with
      | .ok p => if getSuccess p then (.ok p, true) else (.ok r, true)
      | .error _ => (.ok r, true)
    else (.ok r, false)

/-- The response model of the `/ocr` endpoint (`OCRResponse`), wall-clock
field omitted. -/
structure OCRResponse where
  success : Bool
  text : String
  confidence : Rat
  language : String
  engine : String
  word_count : Nat
  model_name : String
  device : String
  error : Option String
  deriving Repr, DecidableEq

/-- The `OCRResponse` construction of the handler (lines 806–833): the
non-raising path hardcodes `success=True` and passes the result dict's keys
through `get` with defaults; the `except` path returns `success=False` with
the exception's message. -/
def buildResponse (lang : String) (branch : Attempt) : OCRResponse :=
  match branch with
  | .ok d =>
    { success := true, text := d.text, confidence := d.confidence,
      language := d.language.getD lang, engine := d.engine.getD ("qwen2.5-vl"),
      word_count := d.word_count.getD 0, model_name := d.model_name.getD "",
      device := d.device.getD "", error := d.error }
  | .error e =>
    { success := false, text := "", confidence := 0, language := lang,
      engine := "qwen2.5-vl", word_count := 0, model_name := "", device := "",
      error := some e }

/-- The inline failure dicts of the `paddle` and `qwen` branches
(lines 740, 745, 751): only the `success`, `error`, `text` and
`confidence` keys are present. -/
def inlineFailure (e : String) : PyResult :=
  { text := "", confidence := 0, success := some false, error := some e }

/-- The model-selection dispatch of the handler (lines 734–798): `"paddle"`
and `"qwen"` run a single engine with a local `try`/`except`; every other
value of the form field takes the automatic branch.  The boolean records
whether `paddle_ocr.extract_text` was invoked. -/
def selectBranch (mode lang : String) (qwenAvail : Bool) (qa pa : Attempt) :
    Attempt × Bool :=
  if mode == "paddle" then
    match pa with
    | .ok p => (.ok p, true)
    | .error e => (.ok (inlineFailure e), true)
  else if mode == "qwen" then
    if !qwenAvail then (.ok (inlineFailure ("Qwen2.5-VL not available")), false)
    else
      match qa with
      | .ok r => (.ok r, false)
      | .error e => (.ok (inlineFailure e), false)
  else autoBranch lang (if qwenAvail then some qa else none) pa

/-- The `/ocr` handler end to end: branch dispatch followed by the
`OCRResponse` construction; an exception propagating out of the branch is
caught by the handler-wide `except` (modelled inside `buildResponse`). -/
def ocrEndpoint (mode lang : String) (qwenAvail : Bool) (qa pa : Attempt) : OCRResponse :=
  buildResponse lang (selectBranch mode lang qwenAvail qa pa).1

/-- A failing attempt as the automatic branch judges the fallback result:
either the call raised or its dict's `success` is falsy. -/
def attemptFailed : Attempt → Bool
  | .ok p => !(getSuccess p)
  | .error _ => true

/-! ## ConnectionManager (`app/main.py`, lines 34–55) -/

/-- A registered observer of the progress broadcaster: its identity and
whether delivery to it succeeds. -/
structure Observer where
  id : Nat
  alive : Bool
  deriving Repr, DecidableEq, BEq

/-- CPython `for connection in lst:` iterates by index; `lst.remove(x)`
removes the first element equal to `x`.  One step of
`ConnectionManager.send_progress`: at cursor `i`, attempt delivery to
`l[i]`; on failure remove it from the list; either way the cursor
advances.  `fuel` bounds the iteration count (the loop runs at most
`l.length` steps since the length never grows and the cursor always
advances).  Returns the remaining observers and the ids delivery was
attempted to, in order. -/
def sendProgressAux : Nat → List Observer → Nat → List Nat → List Observer × List Nat
  | 0, l, _, att => (l, att)
  | fuel + 1, l, i, att =>
    if h : i < l.length then
      let c := l.get ⟨i, h⟩
      if c.alive then sendProgressAux fuel l (i + 1) (att ++ [c.id])
      else sendProgressAux fuel (l.erase c) (i + 1) (att ++ [c.id])
    else (l, att)

/-- `ConnectionManager.send_progress` over the registered observer list. -/
def sendProgress (l : List Observer) : List Observer × List Nat :=
  sendProgressAux l.length l 0 []

/-! ## Properties -/

lemma qwenExtractLoaded_cases (st : QwenState) (lang : String) (env : QwenEnv)
    (evs0 : List ProgressEvent) (cons : Nat) :
    (∃ m, qwenExtractLoaded st lang env evs0 cons =
      ⟨evs0 ++ [("Processing image...", 70)],
       qwenErrorResponse ("Failed to load image: " ++ m) st, st, cons⟩)
    ∨ (∃ m, qwenExtractLoaded st lang env evs0 cons =
      ⟨evs0 ++ [("Processing image...", 70), ("Generating text (with timeout protection)...", 80)],
       qwenTimeoutResponse m st, st, cons⟩)
    ∨ (∃ t, qwenExtractLoaded st lang env evs0 cons =
      ⟨evs0 ++ [("Processing image...", 70), ("Generating text (with timeout protection)...", 80),
                ("OCR completed!", 100)],
       qwenSuccessResponse t lang st, st, cons⟩) := by
  unfold qwenExtractLoaded
  cases hi : env.imageLoad with
  | error msg => exact Or.inl ⟨msg, by simp⟩
  | ok u =>
    cases hg : env.gen with
    | completes out =>
      exact Or.inr (Or.inr ⟨out, by simp [generateWithTimeout]⟩)
    | raises msg =>
      exact Or.inr (Or.inl ⟨msg, by simp [generateWithTimeout]⟩)
    | hangs =>
      exact Or.inr (Or.inl ⟨"Text generation timed out after " ++ toString st.timeout ++ "s",
        by simp [generateWithTimeout]⟩)

lemma qwenExtract_shape (st : QwenState) (lang : String) (env : QwenEnv) :
    (∃ m st', (qwenExtract st lang env).result = qwenErrorResponse m st')
    ∨ (∃ m st', (qwenExtract st lang env).result = qwenTimeoutResponse m st')
    ∨ (∃ t st', (qwenExtract st lang env).result = qwenSuccessResponse t lang st') := by
  unfold qwenExtract
  split
  · rcases qwenExtractLoaded_cases st lang env [] 0 with ⟨m, h⟩ | ⟨m, h⟩ | ⟨t, h⟩
    · exact Or.inl ⟨_, st, by rw [h]⟩
    · exact Or.inr (Or.inl ⟨_, st, by rw [h]⟩)
    · exact Or.inr (Or.inr ⟨_, st, by rw [h]⟩)
  · dsimp only
    cases ho : (qwenLoadModel st env).outcome
    case raised msg => exact Or.inl ⟨_, _, rfl⟩
    case retFalse => exact Or.inl ⟨_, _, rfl⟩
    case retTrue =>
      rcases qwenExtractLoaded_cases (qwenLoadModel st env).st lang env
          ([("Initializing Qwen2.5-VL...", 0)] ++ (qwenLoadModel st env).events)
          (qwenLoadModel st env).constructions with ⟨m, h⟩ | ⟨m, h⟩ | ⟨t, h⟩
      · exact Or.inl ⟨_, _, by rw [h]⟩
      · exact Or.inr (Or.inl ⟨_, _, by rw [h]⟩)
      · exact Or.inr (Or.inr ⟨_, _, by rw [h]⟩)

lemma pySplit_empty : pySplit "" = [] := rfl

lemma wordCount_if_eq (s : String) :
    (if s == "" then 0 else (pySplit s).length) = (pySplit s).length := by
  by_cases h : s = "" <;> simp [h, pySplit_empty]

lemma qwen_result_invariants (st : QwenState) (lang : String) (env : QwenEnv) :
    ((qwenExtract st lang env).result.success = some true ∨
      (qwenExtract st lang env).result.success = some false)
    ∧ ((qwenExtract st lang env).result.error.isSome ↔
        (qwenExtract st lang env).result.success = some false)
    ∧ (optTruthy (qwenExtract st lang env).result.timeout_occurred = true →
        (qwenExtract st lang env).result.success = some false)
    ∧ ((qwenExtract st lang env).result.success = some true →
        (qwenExtract st lang env).result.confidence = 90 ∧
        (qwenExtract st lang env).result.word_count =
          some ((pySplit (qwenExtract st lang env).result.text).length))
    ∧ ((qwenExtract st lang env).result.success = some false →
        (qwenExtract st lang env).result.confidence = 0 ∧
        (qwenExtract st lang env).result.word_count = some 0) := by
  rcases qwenExtract_shape st lang env with ⟨m, st', h⟩ | ⟨m, st', h⟩ | ⟨t, st', h⟩ <;>
    rw [h] <;>
    simp [qwenErrorResponse, qwenTimeoutResponse, qwenSuccessResponse, optTruthy]
  intro h'
  simp [h', pySplit_empty]

lemma autoBranch_snd_ok (lang : String) (r : PyResult) (pa : Attempt) :
    (autoBranch lang (some (.ok r)) pa).2 = fallbackCond r := by
  unfold autoBranch
  by_cases h : fallbackCond r <;> simp [h]
  cases pa with
  | ok p => by_cases hp : getSuccess p <;> simp [hp]
  | error e => rfl

lemma paddleExtract_success (st : PaddleState) (lang : String) (env : PaddleEnv) :
    (paddleExtract st lang env).result.success = some true := by
  cases ha : env.available <;> cases hok : (paddleLoadModel st env).1 <;>
    cases hr : env.run <;>
    simp [paddleExtract, ha, hok, hr, paddleDemoResponse, paddleSuccessResponse]

lemma qwen_fallbackCond_iff (st : QwenState) (lang : String) (env : QwenEnv) :
    fallbackCond (qwenExtract st lang env).result = true ↔
      (qwenExtract st lang env).result.success = some false := by
  obtain ⟨hs, he, ht, -, -⟩ := qwen_result_invariants st lang env
  rcases hs with h1 | h1
  · have hn : (qwenExtract st lang env).result.error = none := by
      cases hE : (qwenExtract st lang env).result.error with
      | none => rfl
      | some s =>
        have hx := he.mp (by simp [hE])
        simp [h1] at hx
    have hto : optTruthy (qwenExtract st lang env).result.timeout_occurred = false := by
      by_cases hT : optTruthy (qwenExtract st lang env).result.timeout_occurred = true
      · have hx := ht hT
        simp [h1] at hx
      · simpa using hT
    simp [fallbackCond, getSuccess, errTruthy, h1, hn, hto]
  · simp [fallbackCond, getSuccess, h1]

lemma qwen_claimCond_iff (st : QwenState) (lang : String) (env : QwenEnv) :
    (getSuccess (qwenExtract st lang env).result = false
      ∨ (qwenExtract st lang env).result.error.isSome
      ∨ optTruthy (qwenExtract st lang env).result.timeout_occurred = true) ↔
      (qwenExtract st lang env).result.success = some false := by
  obtain ⟨hs, he, ht, -, -⟩ := qwen_result_invariants st lang env
  rcases hs with h1 | h1
  · have hn : (qwenExtract st lang env).result.error = none := by
      cases hE : (qwenExtract st lang env).result.error with
      | none => rfl
      | some s =>
        have hx := he.mp (by simp [hE])
        simp [h1] at hx
    have hto : optTruthy (qwenExtract st lang env).result.timeout_occurred = false := by
      by_cases hT : optTruthy (qwenExtract st lang env).result.timeout_occurred = true
      · have hx := ht hT
        simp [h1] at hx
      · simpa using hT
    simp [getSuccess, h1, hn, hto]
  · simp [getSuccess, h1]

lemma string_append_ne_empty (a b : String) (h : a ≠ "") : a ++ b ≠ "" := by
  intro hc
  apply h
  have h1 := congrArg String.length hc
  simp [String.length_append] at h1
  have h2 : a.length = 0 := by omega
  exact String.ext (by simpa [String.length] using List.length_eq_zero.mp h2)

lemma qwenLoadModel_raised_msg (st : QwenState) (env : QwenEnv) (msg : String)
    (h : (qwenLoadModel st env).outcome = .raised msg) : msg = qwenNoCandidateMsg := by
  unfold qwenLoadModel at h
  by_cases hl : st.model_loaded = true
  · rw [hl] at h
    simp at h
  · have hl' : st.model_loaded = false := by simpa using hl
    rw [hl'] at h
    simp only [Bool.false_eq_true, if_false] at h
    cases hc : (tryProcessorLoads env.procLoads qwenModelCandidates).2.2
    · rw [hc] at h
      simpa using h.symm
    · rw [hc] at h
      by_cases hA : (tryApproaches env.modelLoads qwenLoadingApproaches).2 <;> simp [hA] at h

lemma qwenExtractLoaded_error_msgs (st : QwenState) (lang : String) (env : QwenEnv)
    (evs0 : List ProgressEvent) (cons : Nat) (s : String)
    (h : (qwenExtractLoaded st lang env evs0 cons).result.error = some s) :
    (∃ m, s = "Failed to load image: " ++ m)
    ∨ env.gen = .raises s
    ∨ s = "Text generation timed out after " ++ toString st.timeout ++ "s" := by
  unfold qwenExtractLoaded at h
  cases hi : env.imageLoad with
  | error m =>
    rw [hi] at h
    simp [qwenErrorResponse] at h
    exact Or.inl ⟨m, h.symm⟩
  | ok u =>
    rw [hi] at h
    cases hg : env.gen with
    | completes out =>
      rw [hg] at h
      simp [generateWithTimeout, qwenSuccessResponse] at h
    | raises m =>
      rw [hg] at h
      simp [generateWithTimeout, qwenTimeoutResponse] at h
      exact Or.inr (Or.inl (by rw [h]))
    | hangs =>
      rw [hg] at h
      simp [generateWithTimeout, qwenTimeoutResponse] at h
      exact Or.inr (Or.inr h.symm)

lemma qwen_error_nonempty (st : QwenState) (lang : String) (env : QwenEnv)
    (hgen : ∀ m, env.gen = .raises m → m ≠ "") :
    ∀ s, (qwenExtract st lang env).result.error = some s → s ≠ "" := by
  intro s h
  unfold qwenExtract at h
  by_cases hl : st.model_loaded = true
  · rw [hl] at h
    simp only [if_true] at h
    rcases qwenExtractLoaded_error_msgs st lang env [] 0 s h with ⟨m, rfl⟩ | hg | rfl
    · exact string_append_ne_empty ("Failed to load image: ") m (by decide)
    · exact hgen s hg
    · exact string_append_ne_empty ("Text generation timed out after " ++ toString st.timeout)
        "s" (string_append_ne_empty ("Text generation timed out after ")
          (toString st.timeout) (by decide))
  · have hl' : st.model_loaded = false := by simpa using hl
    rw [hl'] at h
    simp only [Bool.false_eq_true, if_false] at h
    cases ho : (qwenLoadModel st env).outcome with
    | raised msg =>
      rw [ho] at h
      simp [qwenErrorResponse] at h
      rw [← h, qwenLoadModel_raised_msg st env msg ho]
      decide
    | retFalse =>
      rw [ho] at h
      simp [qwenErrorResponse] at h
      rw [← h]
      decide
    | retTrue =>
      rw [ho] at h
      rcases qwenExtractLoaded_error_msgs (qwenLoadModel st env).st lang env
          ([("Initializing Qwen2.5-VL...", 0)] ++ (qwenLoadModel st env).events)
          (qwenLoadModel st env).constructions s h with ⟨m, rfl⟩ | hg | rfl
      · exact string_append_ne_empty ("Failed to load image: ") m (by decide)
      · exact hgen s hg
      · exact string_append_ne_empty
          ("Text generation timed out after " ++ toString (qwenLoadModel st env).st.timeout)
          "s" (string_append_ne_empty ("Text generation timed out after ")
            (toString (qwenLoadModel st env).st.timeout) (by decide))

lemma paddle_demo_stops_short (pst : PaddleState) (lang : String) (penv : PaddleEnv) :
    (paddleExtract pst lang penv).result.demo_mode = some true →
      (percents (paddleExtract pst lang penv).events).getLast? ≠ some 100 := by
  cases ha : penv.available <;> cases hok : (paddleLoadModel pst penv).1 <;>
    rcases hr : penv.run with m | m | res <;>
    simp [paddleExtract, ha, hok, hr, paddleDemoResponse, paddleSuccessResponse, percents]

lemma qwen_loaded_head (st : QwenState) (lang : String) (env : QwenEnv)
    (hl : st.model_loaded = true) :
    (percents (qwenExtract st lang env).events).head? = some 70 := by
  unfold qwenExtract
  rw [hl]
  simp only [if_true]
  rcases qwenExtractLoaded_cases st lang env [] 0 with ⟨m, h⟩ | ⟨m, h⟩ | ⟨t, h⟩ <;>
    rw [h] <;> simp [percents]

/-- C2 (confirmed): in automatic mode the secondary engine is invoked if and
only if the primary attempt's classified outcome is SoftFailure, Timeout or
HardError — i.e. the primary's result has a falsy `success`, carries an
error, carries the timeout flag, or the primary raised; after a primary
Success the secondary is never invoked. -/
theorem claim2_fallback_iff (st : QwenState) (lang : String) (qenv : QwenEnv)
    (pa : Attempt) (e : String) :
    ((autoBranch lang (some (.ok (qwenExtract st lang qenv).result)) pa).2 = true ↔
      (getSuccess (qwenExtract st lang qenv).result = false
        ∨ (qwenExtract st lang qenv).result.error.isSome
        ∨ optTruthy (qwenExtract st lang qenv).result.timeout_occurred = true))
    ∧ (autoBranch lang (some (.error e)) pa).2 = true
    ∧ ((qwenExtract st lang qenv).result.success = some true →
        (autoBranch lang (some (.ok (qwenExtract st lang qenv).result)) pa).2 = false) := by
  refine ⟨?_, ?_, ?_⟩
  · rw [autoBranch_snd_ok, qwen_fallbackCond_iff, qwen_claimCond_iff]
  · unfold autoBranch
    cases pa <;> rfl
  · intro h1
    rw [autoBranch_snd_ok]
    by_cases hf : fallbackCond (qwenExtract st lang qenv).result = true
    · have hx := (qwen_fallbackCond_iff st lang qenv).mp hf
      simp [h1] at hx
    · simpa using hf

/-- Witness for C2: a concrete successful primary attempt for which the
automatic branch does not invoke the secondary engine. -/
theorem claim2_witness :
    (autoBranch "eng" (some (.ok (qwenExtract ⟨"Qwen/Qwen2.5-VL-3B-Instruct", true, 30⟩ "eng"
        ⟨fun _ => true, fun _ => true, .ok (), .completes ("Hi")⟩).result))
      (.error ("pe"))).2 = false := by
  have h := claim2_fallback_iff ⟨"Qwen/Qwen2.5-VL-3B-Instruct", true, 30⟩ "eng"
      ⟨fun _ => true, fun _ => true, .ok (), .completes ("Hi")⟩ (.error ("pe")) "qe"
  exact h.2.2 (by decide)

/-- C10 (confirmed): every successful Qwen result has confidence exactly 90
and word count equal to the number of whitespace-separated tokens of its
text; every failure result has confidence 0 and word count 0. -/
theorem claim10_fixed_confidence (st : QwenState) (lang : String) (env : QwenEnv) :
    ((qwenExtract st lang env).result.success = some true →
      (qwenExtract st lang env).result.confidence = 90 ∧
      (qwenExtract st lang env).result.word_count =
        some ((pySplit (qwenExtract st lang env).result.text).length))
    ∧ ((qwenExtract st lang env).result.success = some false →
      (qwenExtract st lang env).result.confidence = 0 ∧
      (qwenExtract st lang env).result.word_count = some 0) := by
  obtain ⟨-, -, -, h4, h5⟩ := qwen_result_invariants st lang env
  exact ⟨h4, h5⟩

/-- Witness for C10: a concrete successful extraction with confidence 90 and
the token-count word count. -/
theorem claim10_witness :
    (qwenExtract ⟨"Qwen/Qwen2.5-VL-3B-Instruct", true, 30⟩ "eng"
      ⟨fun _ => true, fun _ => true, .ok (), .completes (" Hello   world ")⟩).result.confidence = 90 ∧
    (qwenExtract ⟨"Qwen/Qwen2.5-VL-3B-Instruct", true, 30⟩ "eng"
      ⟨fun _ => true, fun _ => true, .ok (), .completes (" Hello   world ")⟩).result.word_count =
      some ((pySplit (qwenExtract ⟨"Qwen/Qwen2.5-VL-3B-Instruct", true, 30⟩ "eng"
        ⟨fun _ => true, fun _ => true, .ok (), .completes (" Hello   world ")⟩).result.text).length) := by
  have h := claim10_fixed_confidence ⟨"Qwen/Qwen2.5-VL-3B-Instruct", true, 30⟩ "eng"
      ⟨fun _ => true, fun _ => true, .ok (), .completes (" Hello   world ")⟩
  exact h.1 (by decide)

/-- C1 (amended): `success=false` implies the error field is present — for
the Qwen adapter error presence is even equivalent to failure, the PaddleOCR
adapter never reports failure, and the handler's `except` path always
populates the error.  The error is moreover non-empty whenever every raised
generation message is non-empty (all other failure messages are fixed
non-empty strings or carry a non-empty prefix), and the handler's `except`
path stores the propagated exception's message verbatim.  The original
claim's `success=true implies error absent` half, and unconditional
non-emptiness, are false — see the counterexample. -/
theorem claim1_error_field_pairing (st : QwenState) (lang : String) (qenv : QwenEnv)
    (pst : PaddleState) (penv : PaddleEnv)
    (mode : String) (avail : Bool) (qa pa : Attempt) (e : String) :
    ((qwenExtract st lang qenv).result.error.isSome ↔
      (qwenExtract st lang qenv).result.success = some false)
    ∧ ((∀ m, qenv.gen = .raises m → m ≠ "") →
        ∀ s, (qwenExtract st lang qenv).result.error = some s → s ≠ "")
    ∧ (paddleExtract pst lang penv).result.success = some true
    ∧ ((ocrEndpoint mode lang avail qa pa).success = false →
        (ocrEndpoint mode lang avail qa pa).error.isSome)
    ∧ (buildResponse lang (.error e)).success = false
    ∧ (buildResponse lang (.error e)).error = some e := by
  refine ⟨(qwen_result_invariants st lang qenv).2.1, qwen_error_nonempty st lang qenv,
    paddleExtract_success pst lang penv, ?_, rfl, rfl⟩
  unfold ocrEndpoint buildResponse
  cases hbr : (selectBranch mode lang avail qa pa).1 <;> simp

/-- Counterexample to C1 as stated: the PaddleOCR demo response has
`success=true` together with a populated `error` field, so `success=true`
does not imply the error field is absent; and a generation exception whose
own message is empty is stored verbatim, giving `success=false` with an
error that is present but empty, so `success=false` does not imply a
non-empty error. -/
theorem claim1_cex :
    (paddleExtract ⟨false⟩ "eng" ⟨false, false, .returns []⟩).result.success = some true
    ∧ (paddleExtract ⟨false⟩ "eng" ⟨false, false, .returns []⟩).result.error ≠ none
    ∧ (qwenExtract ⟨"Qwen/Qwen2.5-VL-3B-Instruct", true, 30⟩ "eng"
        ⟨fun _ => true, fun _ => true, .ok (), .raises ""⟩).result.success = some false
    ∧ (qwenExtract ⟨"Qwen/Qwen2.5-VL-3B-Instruct", true, 30⟩ "eng"
        ⟨fun _ => true, fun _ => true, .ok (), .raises ""⟩).result.error = some "" := by
  exact ⟨by decide, by decide, by decide, by decide⟩

/-- Witness for C1: a concrete handler response with `success=false` whose
error field is present. -/
theorem claim1_witness :
    (ocrEndpoint "auto" "eng" false (.ok (inlineFailure ("x"))) (.error ("disk full"))).error.isSome := by
  have h := claim1_error_field_pairing ⟨"m", true, 30⟩ "eng"
      ⟨fun _ => true, fun _ => true, .ok (), .completes ("hi")⟩ ⟨false⟩
      ⟨false, false, .returns []⟩ "auto" false (.ok (inlineFailure ("x"))) (.error ("disk full"))
      "disk full"
  exact h.2.2.2.1 (by decide)

/-- Counterexample to C3 as stated: when both engines raise, the synthesized
combined result has text `"OCR processing failed"`, not `""`, and carries no
`success` key (so not `success=false`). -/
theorem claim3_cex :
    (autoBranch "eng" (some (.error ("qwen exploded"))) (.error ("paddle exploded"))).1 =
      .ok (combinedFailure "eng" "qwen exploded" "paddle exploded")
    ∧ (combinedFailure "eng" "qwen exploded" "paddle exploded").text = "OCR processing failed"
    ∧ (combinedFailure "eng" "qwen exploded" "paddle exploded").text ≠ ""
    ∧ (combinedFailure "eng" "qwen exploded" "paddle exploded").success ≠ some false := by
  exact ⟨rfl, rfl, by decide, by decide⟩

/-- C3 (amended): only when both the primary and the fallback call raise does
the automatic branch synthesize a combined-failure result; it has an error
concatenating both engines' identifiers and error texts and confidence 0,
but text `"OCR processing failed"` and no `success` key.  In every other
both-fail combination the primary's failure result is returned unchanged,
so its error references only the primary attempt. -/
theorem claim3_amended_behaviour (lang e pe : String) (r : PyResult) (pa : Attempt) :
    autoBranch lang (some (.error e)) (.error pe) = (.ok (combinedFailure lang e pe), true)
    ∧ (combinedFailure lang e pe).error =
        some ("Both engines failed: Qwen: " ++ e ++ ", PaddleOCR: " ++ pe)
    ∧ (combinedFailure lang e pe).confidence = 0
    ∧ (combinedFailure lang e pe).text = "OCR processing failed"
    ∧ (combinedFailure lang e pe).success = none
    ∧ (fallbackCond r = true → attemptFailed pa = true →
        (autoBranch lang (some (.ok r)) pa).1 = .ok r) := by
  refine ⟨rfl, rfl, rfl, rfl, rfl, ?_⟩
  intro hf hp
  cases pa with
  | ok p =>
    have hps : getSuccess p = false := by simpa [attemptFailed] using hp
    simp [autoBranch, hf, hps]
  | error e2 => simp [autoBranch, hf]

/-- Witness for C3: a concrete soft-failing primary with a raising fallback,
for which the primary's failure dict is returned unchanged. -/
theorem claim3_witness :
    (autoBranch "eng" (some (.ok (inlineFailure ("no text detected")))) (.error ("pboom"))).1 =
      .ok (inlineFailure ("no text detected")) := by
  have h := claim3_amended_behaviour "eng" "qe" "pe" (inlineFailure ("no text detected")) (.error ("pboom"))
  exact h.2.2.2.2.2 (by decide) (by decide)

/-- Counterexample to C4 as stated: a generation error raised before the
deadline still produces a result carrying the timeout flag
(`timeout_occurred=true`), because `extract_text` routes every unsuccessful
generation through `_create_timeout_response`. -/
theorem claim4_cex :
    (qwenExtract ⟨"Qwen/Qwen2.5-VL-3B-Instruct", true, 30⟩ "eng"
      ⟨fun _ => true, fun _ => true, .ok (), .raises ("CUDA error: device-side assert")⟩).result.timeout_occurred
      = some true
    ∧ (qwenExtract ⟨"Qwen/Qwen2.5-VL-3B-Instruct", true, 30⟩ "eng"
      ⟨fun _ => true, fun _ => true, .ok (), .raises ("CUDA error: device-side assert")⟩).result.error
      = some ("CUDA error: device-side assert") := by
  exact ⟨by decide, by decide⟩

/-- C4 (amended): when the wrapped work raises before the deadline, the
invoker returns the work's own error message (not a timeout message) with
success false; the adapter however routes this through
`_create_timeout_response`, so the final result carries the timeout flag
despite being a pre-deadline error. -/
theorem claim4_amended_error_routing (st : QwenState) (lang m : String) (env : QwenEnv)
    (hl : st.model_loaded = true) (hi : env.imageLoad = .ok ()) (hg : env.gen = .raises m) :
    generateWithTimeout st.timeout env.gen = ⟨false, none, some m⟩
    ∧ (qwenExtract st lang env).result = qwenTimeoutResponse m st
    ∧ (qwenExtract st lang env).result.error = some m
    ∧ (qwenExtract st lang env).result.success = some false
    ∧ (qwenExtract st lang env).result.timeout_occurred = some true := by
  have h1 : generateWithTimeout st.timeout env.gen = ⟨false, none, some m⟩ := by
    rw [hg]
    rfl
  have h2 : (qwenExtract st lang env).result = qwenTimeoutResponse m st := by
    unfold qwenExtract qwenExtractLoaded
    simp [hl, hi, hg, generateWithTimeout]
  refine ⟨h1, h2, ?_, ?_, ?_⟩ <;> rw [h2] <;> rfl

/-- Witness for C4: a concrete raised generation error whose message is
returned verbatim as the result's error. -/
theorem claim4_witness :
    (qwenExtract ⟨"Qwen/Qwen2.5-VL-3B-Instruct", true, 30⟩ "eng"
      ⟨fun _ => true, fun _ => true, .ok (), .raises ("boom")⟩).result.error = some ("boom") := by
  have h := claim4_amended_error_routing ⟨"Qwen/Qwen2.5-VL-3B-Instruct", true, 30⟩ "eng" "boom"
      ⟨fun _ => true, fun _ => true, .ok (), .raises ("boom")⟩ rfl rfl rfl
  exact h.2.2.1

/-- C9 (confirmed): whenever PaddleOCR is unavailable, fails to initialize,
or its extraction raises, `extract_text` returns the fixed demo result with
`success=true`, the canned text, confidence 85 and word count 6 — a hard
error inside the secondary engine is reported as a successful extraction. -/
theorem claim9_demo_on_failure (pst : PaddleState) (lang : String) (penv : PaddleEnv)
    (h : penv.available = false ∨ (pst.model_loaded = false ∧ penv.loadOk = false)
      ∨ (∃ m, penv.run = .imageRaises m) ∨ (∃ m, penv.run = .ocrRaises m)) :
    (paddleExtract pst lang penv).result = paddleDemoResponse lang
    ∧ (paddleDemoResponse lang).success = some true
    ∧ (paddleDemoResponse lang).text = "PaddleOCR demo mode - model not loaded"
    ∧ (paddleDemoResponse lang).confidence = 85
    ∧ (paddleDemoResponse lang).word_count = some 6 := by
  refine ⟨?_, rfl, rfl, rfl, rfl⟩
  cases ha : penv.available <;> cases hl : pst.model_loaded <;> cases hk : penv.loadOk <;>
    rcases hr : penv.run with m | m | res <;>
    simp_all [paddleExtract, paddleLoadModel]

/-- Witness for C9: the concrete unavailable-library case returns the demo
response. -/
theorem claim9_witness :
    (paddleExtract ⟨false⟩ "urd" ⟨false, false, .returns []⟩).result = paddleDemoResponse "urd" := by
  have h := claim9_demo_on_failure ⟨false⟩ "urd" ⟨false, false, .returns []⟩ (Or.inl rfl)
  exact h.1

lemma tryProcessorLoads_pos (p : String → Bool) :
    1 ≤ (tryProcessorLoads p qwenModelCandidates).2.1 := by
  unfold qwenModelCandidates tryProcessorLoads
  by_cases h : p "Qwen/Qwen2.5-VL-3B-Instruct" <;> simp [h]

lemma qwenLoadModel_constructions_pos (st : QwenState) (env : QwenEnv)
    (hl : st.model_loaded = false) :
    1 ≤ (qwenLoadModel st env).constructions := by
  unfold qwenLoadModel
  rw [hl]
  simp only [Bool.false_eq_true, if_false]
  cases hc : (tryProcessorLoads env.procLoads qwenModelCandidates).2.2 with
  | none =>
    simpa [hc] using tryProcessorLoads_pos env.procLoads
  | some c =>
    have := tryProcessorLoads_pos env.procLoads
    by_cases hA : (tryApproaches env.modelLoads qwenLoadingApproaches).2 <;>
      simp [hc, hA] <;> omega

lemma qwenExtract_constructions (st : QwenState) (lang : String) (env : QwenEnv)
    (hl : st.model_loaded = false) :
    (qwenExtract st lang env).constructions = (qwenLoadModel st env).constructions := by
  unfold qwenExtract
  rw [hl]
  simp only [Bool.false_eq_true, if_false]
  cases ho : (qwenLoadModel st env).outcome
  case raised msg => rfl
  case retFalse => rfl
  case retTrue =>
    rcases qwenExtractLoaded_cases (qwenLoadModel st env).st lang env
        ([("Initializing Qwen2.5-VL...", 0)] ++ (qwenLoadModel st env).events)
        (qwenLoadModel st env).constructions with ⟨m, h⟩ | ⟨m, h⟩ | ⟨t, h⟩ <;> rw [h]

/-- C6 (confirmed): initialization failure is never cached — a failed
`load_model` leaves the loaded flag false and the next `extract_text` calls
the loader again (at least one construction attempt), while after a
successful initialization `load_model` returns immediately with zero
construction attempts; likewise for the PaddleOCR engine. -/
theorem claim6_lazy_retry (qst : QwenState) (pst : PaddleState) (lang : String)
    (qenv : QwenEnv) (penv : PaddleEnv) :
    (qst.model_loaded = true → qwenLoadModel qst qenv = ⟨[], qst, .retTrue, 0⟩)
    ∧ ((qwenLoadModel qst qenv).outcome ≠ .retTrue →
        (qwenLoadModel qst qenv).st.model_loaded = false)
    ∧ (qst.model_loaded = false → 1 ≤ (qwenExtract qst lang qenv).constructions)
    ∧ (qst.model_loaded = true → (qwenExtract qst lang qenv).constructions = 0)
    ∧ (pst.model_loaded = true → paddleLoadModel pst penv = (true, pst, 0))
    ∧ ((paddleLoadModel pst penv).1 = false →
        (paddleLoadModel pst penv).2.1.model_loaded = false)
    ∧ (pst.model_loaded = false → penv.available = true →
        (paddleExtract pst lang penv).constructions = 1) := by
  refine ⟨?_, ?_, ?_, ?_, ?_, ?_, ?_⟩
  · intro hl
    unfold qwenLoadModel
    rw [hl]
    rfl
  · intro ho
    by_cases hl : qst.model_loaded = true
    · exfalso
      apply ho
      unfold qwenLoadModel
      rw [hl]
      rfl
    · have hl' : qst.model_loaded = false := by simpa using hl
      unfold qwenLoadModel
      rw [hl']
      simp only [Bool.false_eq_true, if_false]
      cases hc : (tryProcessorLoads qenv.procLoads qwenModelCandidates).2.2 with
      | none => exact hl'
      | some c =>
        by_cases hA : (tryApproaches qenv.modelLoads qwenLoadingApproaches).2
        · exfalso
          apply ho
          unfold qwenLoadModel
          rw [hl']
          simp [hc, hA]
        · simp [hc, hA, hl']
  · intro hl
    rw [qwenExtract_constructions qst lang qenv hl]
    exact qwenLoadModel_constructions_pos qst qenv hl
  · intro hl
    unfold qwenExtract
    rw [hl]
    simp only [if_true]
    rcases qwenExtractLoaded_cases qst lang qenv [] 0 with ⟨m, h⟩ | ⟨m, h⟩ | ⟨t, h⟩ <;> rw [h]
  · intro hl
    unfold paddleLoadModel
    rw [hl]
    rfl
  · intro hf
    unfold paddleLoadModel at hf ⊢
    by_cases hl : pst.model_loaded = true
    · rw [hl] at hf
      simp at hf
    · have hl' : pst.model_loaded = false := by simpa using hl
      rw [hl'] at hf ⊢
      by_cases ha : penv.available <;> by_cases hk : penv.loadOk <;> simp_all
  · intro hl ha
    rcases hr : penv.run with m | m | res <;>
      simp [paddleExtract, paddleLoadModel, hl, ha, hr] <;>
      by_cases hk : penv.loadOk <;> simp [hk]

/-- Witness for C6: with the model already loaded, `load_model` returns
`True` immediately with zero construction attempts. -/
theorem claim6_witness :
    qwenLoadModel ⟨"Qwen/Qwen2.5-VL-3B-Instruct", true, 30⟩
      ⟨fun _ => false, fun _ => false, .ok (), .hangs⟩ =
      ⟨[], ⟨"Qwen/Qwen2.5-VL-3B-Instruct", true, 30⟩, .retTrue, 0⟩ := by
  have h := claim6_lazy_retry ⟨"Qwen/Qwen2.5-VL-3B-Instruct", true, 30⟩ ⟨true⟩ "eng"
      ⟨fun _ => false, fun _ => false, .ok (), .hangs⟩ ⟨true, true, .returns []⟩
  exact h.1 rfl

lemma paddle_trace (pst : PaddleState) (lang : String) (penv : PaddleEnv) :
    nonDecreasingB (percents (paddleExtract pst lang penv).events) = true
    ∧ (percents (paddleExtract pst lang penv).events).head? = some 0
    ∧ ((paddleExtract pst lang penv).result.demo_mode = some false →
        (percents (paddleExtract pst lang penv).events).getLast? = some 100) := by
  cases ha : penv.available <;> cases hok : (paddleLoadModel pst penv).1 <;>
    rcases hr : penv.run with m | m | res <;>
    simp [paddleExtract, ha, hok, hr, paddleDemoResponse, paddleSuccessResponse,
      percents, nonDecreasingB]

lemma qwen_trace_nondecreasing (st : QwenState) (lang : String) (env : QwenEnv)
    (hp1 : env.procLoads "Qwen/Qwen2.5-VL-3B-Instruct" = true) :
    nonDecreasingB (percents (qwenExtract st lang env).events) = true := by
  by_cases hl : st.model_loaded = true
  · unfold qwenExtract
    rw [hl]
    simp only [if_true]
    rcases qwenExtractLoaded_cases st lang env [] 0 with ⟨m, h⟩ | ⟨m, h⟩ | ⟨t, h⟩ <;>
      rw [h] <;> simp [percents, nonDecreasingB]
  · have hl' : st.model_loaded = false := by simpa using hl
    have ht : tryProcessorLoads env.procLoads qwenModelCandidates =
        ([("Trying model: Qwen/Qwen2.5-VL-3B-Instruct...", 10), ("Loading processor...", 20)],
         1, some "Qwen/Qwen2.5-VL-3B-Instruct") := by
      unfold qwenModelCandidates tryProcessorLoads
      simp [hp1]
    by_cases hA : (tryApproaches env.modelLoads qwenLoadingApproaches).2
    · have hload : qwenLoadModel st env =
          ⟨[("Trying model: Qwen/Qwen2.5-VL-3B-Instruct...", 10), ("Loading processor...", 20),
            ("Loading vision-language model...", 40), ("Model ready for inference", 60)],
           ⟨"Qwen/Qwen2.5-VL-3B-Instruct", true, st.timeout⟩, .retTrue,
           1 + (tryApproaches env.modelLoads qwenLoadingApproaches).1⟩ := by
        unfold qwenLoadModel
        rw [hl']
        simp [ht, hA]
      unfold qwenExtract
      rw [hl']
      simp only [Bool.false_eq_true, if_false, hload]
      rcases qwenExtractLoaded_cases ⟨"Qwen/Qwen2.5-VL-3B-Instruct", true, st.timeout⟩ lang env
          ([("Initializing Qwen2.5-VL...", 0)] ++
           [("Trying model: Qwen/Qwen2.5-VL-3B-Instruct...", 10), ("Loading processor...", 20),
            ("Loading vision-language model...", 40), ("Model ready for inference", 60)])
          (1 + (tryApproaches env.modelLoads qwenLoadingApproaches).1)
        with ⟨m, h⟩ | ⟨m, h⟩ | ⟨t, h⟩ <;> rw [h] <;> simp [percents, nonDecreasingB]
    · have hload : qwenLoadModel st env =
          ⟨[("Trying model: Qwen/Qwen2.5-VL-3B-Instruct...", 10), ("Loading processor...", 20),
            ("Loading vision-language model...", 40)],
           ⟨"Qwen/Qwen2.5-VL-3B-Instruct", false, st.timeout⟩, .retFalse,
           1 + (tryApproaches env.modelLoads qwenLoadingApproaches).1⟩ := by
        unfold qwenLoadModel
        rw [hl']
        simp [ht, hA]
      unfold qwenExtract
      rw [hl']
      simp only [Bool.false_eq_true, if_false, hload]
      simp [percents, nonDecreasingB]

lemma percents_concat (l : List ProgressEvent) (p : ProgressEvent) :
    (percents (l ++ [p])).getLast? = some p.2 := by
  simp [percents]

lemma qwen_trace_head (st : QwenState) (lang : String) (env : QwenEnv)
    (hl : st.model_loaded = false) :
    (percents (qwenExtract st lang env).events).head? = some 0 := by
  unfold qwenExtract
  rw [hl]
  simp only [Bool.false_eq_true, if_false]
  cases ho : (qwenLoadModel st env).outcome
  case raised msg => simp [percents]
  case retFalse => simp [percents]
  case retTrue =>
    rcases qwenExtractLoaded_cases (qwenLoadModel st env).st lang env
        ([("Initializing Qwen2.5-VL...", 0)] ++ (qwenLoadModel st env).events)
        (qwenLoadModel st env).constructions with ⟨m, h⟩ | ⟨m, h⟩ | ⟨t, h⟩ <;>
      rw [h] <;> simp [percents]

lemma qwenExtract_cases (st : QwenState) (lang : String) (env : QwenEnv) :
    (∃ evs m st' c, qwenExtract st lang env = ⟨evs, qwenErrorResponse m st', st', c⟩)
    ∨ (∃ evs0 m st' c, qwenExtract st lang env =
        ⟨evs0 ++ [("Generating text (with timeout protection)...", 80)],
         qwenTimeoutResponse m st', st', c⟩)
    ∨ (∃ evs0 t st' c, qwenExtract st lang env =
        ⟨evs0 ++ [("OCR completed!", 100)], qwenSuccessResponse t lang st', st', c⟩) := by
  unfold qwenExtract
  split
  · rcases qwenExtractLoaded_cases st lang env [] 0 with ⟨m, h⟩ | ⟨m, h⟩ | ⟨t, h⟩
    · exact Or.inl ⟨_, _, _, _, h⟩
    · refine Or.inr (Or.inl ⟨[("Processing image...", 70)], m, st, 0, ?_⟩)
      rw [h]
      simp
    · refine Or.inr (Or.inr ⟨[("Processing image...", 70),
        ("Generating text (with timeout protection)...", 80)], t, st, 0, ?_⟩)
      rw [h]
      simp
  · dsimp only
    cases ho : (qwenLoadModel st env).outcome
    case raised msg => exact Or.inl ⟨_, _, _, _, rfl⟩
    case retFalse => exact Or.inl ⟨_, _, _, _, rfl⟩
    case retTrue =>
      rcases qwenExtractLoaded_cases (qwenLoadModel st env).st lang env
          ([("Initializing Qwen2.5-VL...", 0)] ++ (qwenLoadModel st env).events)
          (qwenLoadModel st env).constructions with ⟨m, h⟩ | ⟨m, h⟩ | ⟨t, h⟩
      · exact Or.inl ⟨_, _, _, _, h⟩
      · refine Or.inr (Or.inl ⟨[("Initializing Qwen2.5-VL...", 0)] ++ (qwenLoadModel st env).events ++
          [("Processing image...", 70)], m, (qwenLoadModel st env).st,
          (qwenLoadModel st env).constructions, ?_⟩)
        rw [h]
        simp
      · refine Or.inr (Or.inr ⟨[("Initializing Qwen2.5-VL...", 0)] ++ (qwenLoadModel st env).events ++
          [("Processing image...", 70), ("Generating text (with timeout protection)...", 80)], t,
          (qwenLoadModel st env).st, (qwenLoadModel st env).constructions, ?_⟩)
        rw [h]
        simp

lemma qwen_trace_last (st : QwenState) (lang : String) (env : QwenEnv)
    (hs : (qwenExtract st lang env).result.success = some true) :
    (percents (qwenExtract st lang env).events).getLast? = some 100 := by
  rcases qwenExtract_cases st lang env with
      ⟨evs, m, st', c, h⟩ | ⟨evs0, m, st', c, h⟩ | ⟨evs0, t, st', c, h⟩
  · rw [h] at hs
    simp [qwenErrorResponse] at hs
  · rw [h] at hs
    simp [qwenTimeoutResponse] at hs
  · rw [h]
    exact percents_concat evs0 ("OCR completed!", 100)

/-- Counterexample to C7 as stated: (a) when the first model candidate fails
and the second succeeds, one successful invocation emits the percentages
0,10,20,10,20,40,60,70,80,100 — not a non-decreasing sequence; (b) a
successful invocation with the model already loaded starts at 70, not at or
near 0; (c) a PaddleOCR invocation whose model fails to load returns
`success=true` (demo mode) while its trace is [0, 20], stopping short of
100. -/
theorem claim7_cex :
    percents (qwenExtract ⟨"Qwen/Qwen2.5-VL-3B-Instruct", false, 30⟩ "eng"
      ⟨fun c => c == "Qwen/Qwen-VL-Chat", fun _ => true, .ok (), .completes ("Hello world")⟩).events
      = [0, 10, 20, 10, 20, 40, 60, 70, 80, 100]
    ∧ nonDecreasingB (percents (qwenExtract ⟨"Qwen/Qwen2.5-VL-3B-Instruct", false, 30⟩ "eng"
      ⟨fun c => c == "Qwen/Qwen-VL-Chat", fun _ => true, .ok (), .completes ("Hello world")⟩).events)
      = false
    ∧ (qwenExtract ⟨"Qwen/Qwen2.5-VL-3B-Instruct", false, 30⟩ "eng"
      ⟨fun c => c == "Qwen/Qwen-VL-Chat", fun _ => true, .ok (),
        .completes ("Hello world")⟩).result.success = some true
    ∧ (percents (qwenExtract ⟨"Qwen/Qwen2.5-VL-3B-Instruct", true, 30⟩ "eng"
      ⟨fun _ => true, fun _ => true, .ok (), .completes ("Hi")⟩).events).head? = some 70
    ∧ (qwenExtract ⟨"Qwen/Qwen2.5-VL-3B-Instruct", true, 30⟩ "eng"
      ⟨fun _ => true, fun _ => true, .ok (), .completes ("Hi")⟩).result.success = some true
    ∧ percents (paddleExtract ⟨false⟩ "eng" ⟨true, false, .returns []⟩).events = [0, 20]
    ∧ (paddleExtract ⟨false⟩ "eng" ⟨true, false, .returns []⟩).result.success = some true := by
  exact ⟨by decide, by decide, by decide, by decide, by decide, by decide, by decide⟩

/-- C7 (amended): PaddleOCR progress is non-decreasing, starts at 0, ends at
100 on a non-demo success, and on a demo-mode result (reported as success)
stops short of 100; Qwen progress starts at 0 when lazy loading occurs and
at 70 when the model is already loaded, ends at 100 on success, and is
non-decreasing provided the first model candidate's processor loads (the
candidate retry loop otherwise restarts at 10 after emitting 20). -/
theorem claim7_amended_progress (st : QwenState) (pst : PaddleState) (lang : String)
    (env : QwenEnv) (penv : PaddleEnv) :
    nonDecreasingB (percents (paddleExtract pst lang penv).events) = true
    ∧ (percents (paddleExtract pst lang penv).events).head? = some 0
    ∧ ((paddleExtract pst lang penv).result.demo_mode = some false →
        (percents (paddleExtract pst lang penv).events).getLast? = some 100)
    ∧ (env.procLoads "Qwen/Qwen2.5-VL-3B-Instruct" = true →
        nonDecreasingB (percents (qwenExtract st lang env).events) = true)
    ∧ (st.model_loaded = false → (percents (qwenExtract st lang env).events).head? = some 0)
    ∧ ((qwenExtract st lang env).result.success = some true →
        (percents (qwenExtract st lang env).events).getLast? = some 100)
    ∧ ((paddleExtract pst lang penv).result.demo_mode = some true →
        (percents (paddleExtract pst lang penv).events).getLast? ≠ some 100)
    ∧ (st.model_loaded = true →
        (percents (qwenExtract st lang env).events).head? = some 70) := by
  obtain ⟨p1, p2, p3⟩ := paddle_trace pst lang penv
  exact ⟨p1, p2, p3, qwen_trace_nondecreasing st lang env, qwen_trace_head st lang env,
    qwen_trace_last st lang env, paddle_demo_stops_short pst lang penv,
    qwen_loaded_head st lang env⟩

/-- Witness for C7: a concrete lazy-loading invocation whose first candidate
loads, with a non-decreasing progress trace. -/
theorem claim7_witness :
    nonDecreasingB (percents (qwenExtract ⟨"Qwen/Qwen2.5-VL-3B-Instruct", false, 30⟩ "eng"
      ⟨fun _ => true, fun _ => true, .ok (), .completes ("Hi")⟩).events) = true := by
  have h := claim7_amended_progress ⟨"Qwen/Qwen2.5-VL-3B-Instruct", false, 30⟩ ⟨false⟩ "eng"
      ⟨fun _ => true, fun _ => true, .ok (), .completes ("Hi")⟩ ⟨true, true, .returns []⟩
  exact h.2.2.2.1 (by decide)

/-- C8 (code bug): `send_progress` removes a failing observer from the list
it is iterating over, so the observer after the removed one is skipped in
that broadcast: with observers [dead 1, live 2] only observer 1 is
attempted, and with [dead 1, dead 2] the second dead observer is neither
attempted nor removed and stays registered. -/
theorem claim8_send_progress_skips :
    sendProgress [⟨1, false⟩, ⟨2, true⟩] = ([⟨2, true⟩], [1])
    ∧ sendProgress [⟨1, false⟩, ⟨2, false⟩] = ([⟨2, false⟩], [1]) := by
  exact ⟨by decide, by decide⟩
